import Mathlib

/-
Verification of the resilient request executor of the 212 trading client
(api_client_212.py) and of the enum-validated tool entry points (main.py),
via a shallow embedding in Lean.

Conventions of the embedding:
- Python integers are Lean Int, wall-clock times (time.time) are rationals.
- Optional Python values are Lean Option; the Python truthiness tests that
  the source performs are modelled explicitly.
- The HTTP headers relevant to the client are the five x-ratelimit-* headers;
  a header set is modelled by the parsed integer value of each of them,
  with none standing for an absent header.
- The asynchronous executor adjust_to_rate_limits is modelled as a function
  of the state it reads together with the outcome of the single network
  request that it awaits; the un-awaited request() call on its retry path
  (line 94 of the source, which lacks the await keyword of line 88) is
  modelled by an explicit coroutine value on which attribute access raises
  AttributeError, exactly as in CPython.
-/

namespace Trading212

/-- Parsed integer values of the five x-ratelimit-* response headers.
A field is none when the header is absent and some v when its text parses
as the integer v (the permissive int(...) parsing done by the source). -/
structure Headers where
  limit : Option Int := none
  period : Option Int := none
  remaining : Option Int := none
  reset : Option Int := none
  used : Option Int := none
  deriving Repr, DecidableEq

/-- Embeds class RateLimit (api_client_212.py lines 13-22): the five quota
fields, each defaulting to Python None in the constructor. -/
structure RateLimit where
  limit : Option Int := none
  period : Option Int := none
  remaining : Option Int := none
  reset : Option Int := none
  used : Option Int := none
  deriving Repr, DecidableEq

/-- Python truthiness of an Optional[int]: None and 0 are falsy. -/
def intTruthy : Option Int → Bool
  | none => false
  | some v => v != 0

/-- Embeds RateLimit.ensure_can_call (lines 27-32) as the duration of the
sleep it performs when entered at wall-clock time now:
if self.reset (truthy) and self.remaining == 0, compute
wait_time = reset - time.time() and sleep wait_time + 1 when positive;
in every other case the method returns immediately (duration 0). -/
def RateLimit.ensure_can_call (s : RateLimit) (now : ℚ) : ℚ :=
  if intTruthy s.reset && (s.remaining == some 0) then
    let wait_time : ℚ := ((s.reset.getD 0 : Int) : ℚ) - now
    if wait_time > 0 then wait_time + 1 else 0
  else 0

/-- Embeds the static method RateLimit.from_headers (lines 34-44): each
field is int(headers.get(key, 0)), so an absent header yields 0. -/
def RateLimit.from_headers (headers : Headers) : RateLimit :=
  { limit := some (headers.limit.getD 0)
  , period := some (headers.period.getD 0)
  , remaining := some (headers.remaining.getD 0)
  , reset := some (headers.reset.getD 0)
  , used := some (headers.used.getD 0) }

/-- Embeds the assignment self.ratelimit = RateLimit.from_headers(...)
performed by the executor (line 89): the previous state old is discarded
wholesale and replaced by the state parsed from the headers. -/
def observe (old : RateLimit) (headers : Headers) : RateLimit :=
  let _ := old
  RateLimit.from_headers headers

/-- A JSON value, as produced by response.json() or passed as the data
argument of a POST. -/
inductive J where
  | null
  | bool (b : Bool)
  | num (q : ℚ)
  | str (s : String)
  | arr (elems : List J)
  | obj (fields : List (String × J))
  deriving Repr

/-- Python truthiness of a JSON value: None, False, 0, empty string, empty
list and empty dict are falsy. -/
def J.pyTruthy : J → Bool
  | .null => false
  | .bool b => b
  | .num q => q != 0
  | .str s => s != ""
  | .arr es => !es.isEmpty
  | .obj fs => !fs.isEmpty

/-- A completed HTTP response: status code, quota headers, body text, and
the outcome of response.json() (some j when the body is valid structured
data parsing to j, none when response.json() raises). -/
structure Response where
  status_code : Nat
  headers : Headers := {}
  text : String := ""
  jsonBody : Option J := none
  deriving Repr

/-- httpx Response.is_success: true exactly for 2xx status codes. -/
def Response.is_success (r : Response) : Bool :=
  200 ≤ r.status_code && r.status_code ≤ 299

/-- The information carried by the Exception that raise_on_error raises
(lines 97-110): the verb and url of the request, the original status code,
the response body (the parsed JSON when response.json() succeeds, else the
raw response text), and the request data exactly when the Python test
if data: is truthy. -/
structure NormalizedError where
  method : String
  url : String
  status : Nat
  body : J ⊕ String
  requestData : Option J
  deriving Repr

/-- Embeds Client212.raise_on_error (lines 97-111): response.raise_for_status
raises for every non-2xx status; the error message is then built from the
status code, from response.json() when it parses (else the raw text), and
from the request data only when if data: holds (so None and the empty dict
are both omitted). On a 2xx response the response is returned unchanged. -/
def raise_on_error (resp : Response) (url method : String) (data : Option J) :
    Except NormalizedError Response :=
  if resp.is_success then .ok resp
  else .error
    { method := method
    , url := url
    , status := resp.status_code
    , body := match resp.jsonBody with
        | some error_info => Sum.inl error_info
        | none => Sum.inr resp.text
    , requestData := if (data.getD J.null).pyTruthy then data else none }

/-- A CPython runtime error relevant to the executor: attribute access on a
coroutine object raises AttributeError. -/
inductive PyError where
  | attributeError
  deriving Repr, DecidableEq

/-- A transport-level failure of await request(): DNS, connection or
timeout errors raised by the HTTP library before a response exists. -/
inductive TransportError where
  | failure (msg : String)
  deriving Repr, DecidableEq

/-- The value held by the local variable response inside
adjust_to_rate_limits: either an awaited Response, or the bare coroutine
object produced by the call request() on line 94, which is not awaited. -/
inductive PyVal where
  | resp (r : Response)
  | coro
  deriving Repr

/-- Embeds the while loop of adjust_to_rate_limits (lines 91-94):
while response.status_code == 429 and attempt < 3. Reading status_code on
a coroutine raises AttributeError (short-circuit: attempt < 3 is then never
evaluated). The body runs attempt += 1, sleeps per
self.ratelimit.ensure_can_call() on the state rl set at line 89 (the loop
never reassigns self.ratelimit), and assigns response = request(): the
un-awaited call creates a coroutine and sends nothing over the network.
Returns the raised-or-returned outcome, the wall-clock time on exit, and
the number of body iterations executed. -/
def retry_loop (rl : RateLimit) (v : PyVal) (attempt : Nat) (now : ℚ)
    (iters : Nat) : Except PyError Response × ℚ × Nat :=
  match v with
  | .coro => (.error .attributeError, now, iters)
  | .resp r =>
    if h : r.status_code = 429 ∧ attempt < 3 then
      retry_loop rl .coro (attempt + 1) (now + rl.ensure_can_call now) (iters + 1)
    else (.ok r, now, iters)
termination_by 4 - attempt
decreasing_by omega

/-- The outcome of one run of adjust_to_rate_limits. -/
inductive ExecResult where
  | response (r : Response)
  | transportError (e : TransportError)
  | pyError (e : PyError)
  deriving Repr

/-- Observable trace of one run of adjust_to_rate_limits: its outcome, the
final value of self.ratelimit, how many HTTP requests were actually sent
over the network (awaited dispatches), how many retry-loop body iterations
ran, and the wall-clock time at which the awaited dispatch was issued. -/
structure ExecTrace where
  result : ExecResult
  ratelimit : RateLimit
  dispatched : Nat
  loopIterations : Nat
  firstDispatchTime : ℚ
  deriving Repr

/-- Embeds Client212.adjust_to_rate_limits (lines 86-95) entered at
wall-clock time now with shared state rl0. Line 87 sleeps per
ensure_can_call; line 88 awaits the single network request, whose outcome
(a response, or a raised transport error) is the parameter firstAttempt;
line 89 replaces self.ratelimit from the response headers; lines 90-94 run
the retry loop, whose request() calls are never awaited and therefore send
nothing; line 95 returns the response. A raised exception leaves
self.ratelimit at the value it had when the exception occurred. -/
def adjust_to_rate_limits (rl0 : RateLimit) (now : ℚ)
    (firstAttempt : Except TransportError Response) : ExecTrace :=
  let t1 := now + rl0.ensure_can_call now
  match firstAttempt with
  | .error e =>
      { result := .transportError e, ratelimit := rl0, dispatched := 1
      , loopIterations := 0, firstDispatchTime := t1 }
  | .ok response =>
      let rl1 := RateLimit.from_headers response.headers
      match retry_loop rl1 (.resp response) 0 t1 0 with
      | (.ok r, _, iters) =>
          { result := .response r, ratelimit := rl1, dispatched := 1
          , loopIterations := iters, firstDispatchTime := t1 }
      | (.error e, _, iters) =>
          { result := .pyError e, ratelimit := rl1, dispatched := 1
          , loopIterations := iters, firstDispatchTime := t1 }

/-- UTF-8 encoding of a single character, as bytes (Nat values below 256). -/
def utf8Bytes (c : Char) : List Nat :=
  let n := c.toNat
  if n < 128 then [n]
  else if n < 2048 then [192 + n / 64, 128 + n % 64]
  else if n < 65536 then [224 + n / 4096, 128 + n / 64 % 64, 128 + n % 64]
  else [240 + n / 262144, 128 + n / 4096 % 64, 128 + n / 64 % 64, 128 + n % 64]

/-- Embeds str.encode with the utf-8 codec: the byte sequence of a string. -/
def utf8Encode (s : String) : List Nat :=
  s.data.flatMap utf8Bytes

/-- The 64 characters of the standard base64 alphabet. -/
def base64Table : List Char :=
  "ABCDEFGHIJKLMNOPQRSTUVWXYZabcdefghijklmnopqrstuvwxyz0123456789+/".data

/-- The base64 digit for a 6-bit value. -/
def base64Char (n : Nat) : Char := base64Table.getD n 'A'

/-- Embeds base64.b64encode on a byte sequence: groups of three bytes become
four digits; a trailing group of one or two bytes is padded with =. -/
def b64encode : List Nat → List Char
  | [] => []
  | [a] =>
      [base64Char (a / 4), base64Char (a % 4 * 16), '=', '=']
  | [a, b] =>
      [base64Char (a / 4), base64Char (a % 4 * 16 + b / 16),
       base64Char (b % 16 * 4), '=']
  | a :: b :: c :: rest =>
      base64Char (a / 4) :: base64Char (a % 4 * 16 + b / 16) ::
      base64Char (b % 16 * 4 + c / 64) :: base64Char (c % 64) :: b64encode rest

/-- Embeds the static method Client212.make_credentials (lines 68-75):
base64 of the UTF-8 bytes of the string key_id, a colon, key_secret. -/
def make_credentials (key_id key_secret : String) : String :=
  String.mk (b64encode (utf8Encode (key_id ++ ":" ++ key_secret)))

/-- Embeds str.rstrip applied with the single character slash. -/
def rstripSlash (s : String) : String :=
  String.mk (s.data.reverse.dropWhile (fun c => c = '/')).reverse

/-- Embeds the immutable data of a Client212 instance (lines 58-63):
the key pair, the base url with trailing slashes stripped, and the
credentials token derived once at construction. -/
structure Client212 where
  key_id : String
  key_secret : String
  base_url : String
  credentials : String
  deriving Repr, DecidableEq

/-- Embeds Client212.__init__ (lines 58-63). -/
def Client212.init (key_id key_secret base_url : String) : Client212 :=
  { key_id := key_id
  , key_secret := key_secret
  , base_url := rstripSlash base_url
  , credentials := make_credentials key_id key_secret }

/-- Embeds Client212.make_url (lines 77-79). -/
def Client212.make_url (c : Client212) (path : String) : String :=
  c.base_url ++ "/" ++ path

/-- Embeds Client212.make_headers (lines 81-84): the value of the single
Authorization header the client sends. -/
def Client212.make_headers (c : Client212) : String :=
  "Basic " ++ c.credentials

/-- What a whole verb call (get, post or delete) produces for its caller. -/
inductive CallOutcome where
  | payload (j : J)
  | deleteResult (b : Bool)
  | normalized (e : NormalizedError)
  | transportFailure (e : TransportError)
  | pyError (e : PyError)
  | decodeError
  deriving Repr

/-- Embeds Client212.get (lines 113-120): run the executor on the request,
raise on a non-2xx status, then return response.json(); a success body that
is not valid structured data makes response.json() raise, modelled by the
decodeError outcome. Also returns the final shared rate-limit state. -/
def Client212.get (c : Client212) (path : String) (rl0 : RateLimit) (now : ℚ)
    (firstAttempt : Except TransportError Response) : CallOutcome × RateLimit :=
  let url := c.make_url path
  let tr := adjust_to_rate_limits rl0 now firstAttempt
  match tr.result with
  | .transportError e => (.transportFailure e, tr.ratelimit)
  | .pyError e => (.pyError e, tr.ratelimit)
  | .response r =>
    match raise_on_error r url "GET" none with
    | .error e => (.normalized e, tr.ratelimit)
    | .ok ok =>
      match ok.jsonBody with
      | some j => (.payload j, tr.ratelimit)
      | none => (.decodeError, tr.ratelimit)

/-- Embeds Client212.post (lines 122-129): as get, but the request body
data is passed to raise_on_error for error reporting. -/
def Client212.post (c : Client212) (path : String) (data : J) (rl0 : RateLimit)
    (now : ℚ) (firstAttempt : Except TransportError Response) :
    CallOutcome × RateLimit :=
  let url := c.make_url path
  let tr := adjust_to_rate_limits rl0 now firstAttempt
  match tr.result with
  | .transportError e => (.transportFailure e, tr.ratelimit)
  | .pyError e => (.pyError e, tr.ratelimit)
  | .response r =>
    match raise_on_error r url "POST" (some data) with
    | .error e => (.normalized e, tr.ratelimit)
    | .ok ok =>
      match ok.jsonBody with
      | some j => (.payload j, tr.ratelimit)
      | none => (.decodeError, tr.ratelimit)

/-- Embeds Client212.delete (lines 131-138): as get, but on a response that
passes raise_on_error the call returns response.is_success. -/
def Client212.delete (c : Client212) (path : String) (rl0 : RateLimit)
    (now : ℚ) (firstAttempt : Except TransportError Response) :
    CallOutcome × RateLimit :=
  let url := c.make_url path
  let tr := adjust_to_rate_limits rl0 now firstAttempt
  match tr.result with
  | .transportError e => (.transportFailure e, tr.ratelimit)
  | .pyError e => (.pyError e, tr.ratelimit)
  | .response r =>
    match raise_on_error r url "DELETE" none with
    | .error e => (.normalized e, tr.ratelimit)
    | .ok ok => (.deleteResult ok.is_success, tr.ratelimit)

/-- Embeds the enum Client212.TimeValidity (lines 50-52). -/
inductive TimeValidity where
  | DAY
  | GOOD_TILL_CANCEL
  deriving Repr, DecidableEq

/-- Embeds the enum-by-value call Client212.TimeValidity(s): Python raises
ValueError (none) when s is not the value of a member. -/
def TimeValidity.ofValue : String → Option TimeValidity
  | "DAY" => some .DAY
  | "GOOD_TILL_CANCEL" => some .GOOD_TILL_CANCEL
  | _ => none

/-- The .value attribute of a TimeValidity member. -/
def TimeValidity.value : TimeValidity → String
  | .DAY => "DAY"
  | .GOOD_TILL_CANCEL => "GOOD_TILL_CANCEL"

/-- Embeds the enum Client212.DividendDestination (lines 54-56). -/
inductive DividendDestination where
  | REINVEST
  | TO_ACCOUNT_CASH
  deriving Repr, DecidableEq

/-- Embeds the enum-by-value call Client212.DividendDestination(s): Python
raises ValueError (none) when s is not the value of a member. -/
def DividendDestination.ofValue : String → Option DividendDestination
  | "REINVEST" => some .REINVEST
  | "TO_ACCOUNT_CASH" => some .TO_ACCOUNT_CASH
  | _ => none

/-- The .value attribute of a DividendDestination member. -/
def DividendDestination.value : DividendDestination → String
  | .REINVEST => "REINVEST"
  | .TO_ACCOUNT_CASH => "TO_ACCOUNT_CASH"

/-- A Python datetime as far as create_pie uses it: the text produced by
isoformat() and whether tzinfo is set. -/
structure PyDatetime where
  iso : String
  hasTzinfo : Bool
  deriving Repr, DecidableEq

/-- Embeds the endDate expression of Client212.create_pie (line 217):
None stays null; a naive datetime gets a Z suffix; an aware one is passed
through isoformat unchanged. -/
def endDateJson : Option PyDatetime → J
  | none => J.null
  | some d => if d.hasTzinfo then J.str d.iso else J.str (d.iso ++ "Z")

/-- The path and JSON body of an HTTP request a domain method is about to
issue. -/
structure BuiltRequest where
  path : String
  body : J
  deriving Repr

/-- What a tool entry point does before any network activity: either build
the request it will issue, or raise ValueError during enum conversion, in
which case no request is ever built or sent. -/
inductive ToolStep where
  | request (r : BuiltRequest)
  | valueError (bad : String)
  deriving Repr

/-- Embeds the body built by Client212.place_limit_order (lines 177-183). -/
def place_limit_order_request (limit_price quantity : ℚ) (ticker : String)
    (time_validity : TimeValidity) : BuiltRequest :=
  { path := "equity/orders/limit"
  , body := J.obj
      [ ("limitPrice", J.num limit_price)
      , ("quantity", J.num quantity)
      , ("ticker", J.str ticker)
      , ("timeValidity", J.str time_validity.value) ] }

/-- Embeds the MCP tool place_limit_order (main.py lines 247-250): the
argument Client212.TimeValidity(time_validity) is evaluated first, so an
invalid string raises ValueError before client.place_limit_order runs and
before any request is built. -/
def place_limit_order_tool (ticker : String) (quantity limit_price : ℚ)
    (time_validity : String) : ToolStep :=
  match TimeValidity.ofValue time_validity with
  | none => .valueError time_validity
  | some tv => .request (place_limit_order_request limit_price quantity ticker tv)

/-- Embeds the body built by Client212.create_pie (lines 213-220). -/
def create_pie_request (name : String) (dividend_destination : DividendDestination)
    (instrument_shares : List (String × ℚ)) (end_date : Option PyDatetime)
    (goal : Option ℚ) : BuiltRequest :=
  { path := "equity/pies"
  , body := J.obj
      [ ("name", J.str name)
      , ("goal", match goal with | none => J.null | some g => J.num g)
      , ("endDate", endDateJson end_date)
      , ("dividendCashAction", J.str dividend_destination.value)
      , ("instrumentShares",
         J.obj (instrument_shares.map (fun p => (p.1, J.num p.2)))) ] }

/-- Embeds the MCP tool create_pie (main.py lines 339-344): the argument
Client212.DividendDestination(dividend_destination) is evaluated first, so
an invalid string (for example the value CASH that the tool description
suggests) raises ValueError before client.create_pie runs and before any
request is built. -/
def create_pie_tool (name : String) (dividend_destination : String)
    (instrument_shares : List (String × ℚ)) (end_date : Option PyDatetime)
    (goal : Option ℚ) : ToolStep :=
  match DividendDestination.ofValue dividend_destination with
  | none => .valueError dividend_destination
  | some dd =>
      .request (create_pie_request name dd instrument_shares end_date goal)

/-- Phase of one asyncio task running adjust_to_rate_limits on a shared
client: about to run the admission check, suspended at await request()
(line 88) with the request already sent, or finished after refreshing the
shared state (line 89). -/
inductive TaskPhase where
  | toAdmit
  | inFlight
  | finished
  deriving Repr, DecidableEq

/-- One concurrent caller of the executor: its phase, the response its
request will produce, and, once admitted, a record of the remaining field
of the shared state it observed at its admission check. -/
structure TaskState where
  phase : TaskPhase
  response : Response
  admittedSeeing : Option (Option Int) := none
  deriving Repr

/-- Two concurrent callers sharing one client: the shared self.ratelimit,
both task states, and how many requests have been dispatched. -/
structure SysState where
  ratelimit : RateLimit
  task0 : TaskState
  task1 : TaskState
  dispatched : Nat := 0
  deriving Repr

/-- One atomic segment of a task under the asyncio event loop, as the
source schedules it. The source takes no lock, so the only atomicity is
the one asyncio gives: code between awaits runs without interleaving.
Segment one (admission): ensure_can_call reads the shared state
(time.sleep blocks the whole loop, so the check-and-sleep is one segment),
then await request() sends the request and suspends the task. Segment two
(resume): the response has arrived and line 89 replaces the shared state
from its headers. A finished task does nothing. -/
def stepTask (rl : RateLimit) (t : TaskState) (dispatched : Nat) :
    RateLimit × TaskState × Nat :=
  match t.phase with
  | .toAdmit =>
      (rl,
       { t with phase := .inFlight, admittedSeeing := some rl.remaining },
       dispatched + 1)
  | .inFlight =>
      (RateLimit.from_headers t.response.headers,
       { t with phase := .finished },
       dispatched)
  | .finished => (rl, t, dispatched)

/-- Run one atomic segment of the task selected by pick. -/
def step (s : SysState) (pick : Bool) : SysState :=
  if pick then
    let next := stepTask s.ratelimit s.task1 s.dispatched
    { s with ratelimit := next.1, task1 := next.2.1, dispatched := next.2.2 }
  else
    let next := stepTask s.ratelimit s.task0 s.dispatched
    { s with ratelimit := next.1, task0 := next.2.1, dispatched := next.2.2 }

/-- Run a whole schedule, one atomic segment at a time. -/
def runSchedule (s : SysState) : List Bool → SysState
  | [] => s
  | pick :: rest => runSchedule (step s pick) rest

/-! Helper lemmas about the executor. -/

theorem retry_loop_of_non429 (rl : RateLimit) (r : Response) (attempt : Nat)
    (now : ℚ) (iters : Nat) (h : r.status_code ≠ 429) :
    retry_loop rl (.resp r) attempt now iters = (.ok r, now, iters) := by
  unfold retry_loop
  rw [dif_neg]
  intro hc
  exact h hc.1

theorem retry_loop_of_429 (rl : RateLimit) (r : Response) (now : ℚ)
    (iters : Nat) (h : r.status_code = 429) :
    retry_loop rl (.resp r) 0 now iters =
      (.error .attributeError, now + rl.ensure_can_call now, iters + 1) := by
  rw [retry_loop]
  rw [dif_pos ⟨h, by omega⟩]
  rw [retry_loop]

theorem adjust_of_non429 (rl0 : RateLimit) (now : ℚ) (r : Response)
    (h : r.status_code ≠ 429) :
    adjust_to_rate_limits rl0 now (.ok r) =
      { result := .response r
      , ratelimit := RateLimit.from_headers r.headers
      , dispatched := 1
      , loopIterations := 0
      , firstDispatchTime := now + rl0.ensure_can_call now } := by
  simp only [adjust_to_rate_limits, retry_loop_of_non429 _ _ _ _ _ h]

theorem adjust_of_429 (rl0 : RateLimit) (now : ℚ) (r : Response)
    (h : r.status_code = 429) :
    adjust_to_rate_limits rl0 now (.ok r) =
      { result := .pyError .attributeError
      , ratelimit := RateLimit.from_headers r.headers
      , dispatched := 1
      , loopIterations := 1
      , firstDispatchTime := now + rl0.ensure_can_call now } := by
  simp only [adjust_to_rate_limits, retry_loop_of_429 _ _ _ _ h]

theorem adjust_of_transport_error (rl0 : RateLimit) (now : ℚ)
    (e : TransportError) :
    adjust_to_rate_limits rl0 now (.error e) =
      { result := .transportError e
      , ratelimit := rl0
      , dispatched := 1
      , loopIterations := 0
      , firstDispatchTime := now + rl0.ensure_can_call now } := by
  rfl

theorem adjust_firstDispatchTime (rl0 : RateLimit) (now : ℚ)
    (fa : Except TransportError Response) :
    (adjust_to_rate_limits rl0 now fa).firstDispatchTime =
      now + rl0.ensure_can_call now := by
  match fa with
  | .error e => rw [adjust_of_transport_error]
  | .ok r =>
      by_cases h : r.status_code = 429
      · rw [adjust_of_429 _ _ _ h]
      · rw [adjust_of_non429 _ _ _ h]

/-! Claim theorems. -/

/-- Claim C2: for every rate-limit state with remaining equal to 0 and reset
strictly in the future, the admission check suspends the caller until
reset plus a buffer of 1 second, so the next call is dispatched at time
reset + 1 at the earliest; for every state with remaining nonzero, with
remaining unset, or with reset not in the future, the admission check
returns immediately (sleep duration 0) and the call dispatches at the
current time, without delay. -/
theorem ensure_can_call_admission (s : RateLimit) (now : ℚ) :
    (∀ r : Int, s.remaining = some 0 → s.reset = some r → 0 < now →
      now < (r : ℚ) →
      s.ensure_can_call now = ((r : ℚ) - now) + 1 ∧
      (∀ fa, (adjust_to_rate_limits s now fa).firstDispatchTime = (r : ℚ) + 1))
    ∧ (∀ k : Int, s.remaining = some k → k ≠ 0 →
      s.ensure_can_call now = 0 ∧
      (∀ fa, (adjust_to_rate_limits s now fa).firstDispatchTime = now))
    ∧ (s.remaining = none → s.ensure_can_call now = 0)
    ∧ (∀ r : Int, s.reset = some r → (r : ℚ) ≤ now →
      s.ensure_can_call now = 0 ∧
      (∀ fa, (adjust_to_rate_limits s now fa).firstDispatchTime = now)) := by
  refine ⟨?_, ?_, ?_, ?_⟩
  · intro r hrem hres hnow hfut
    have hr0 : (0 : ℚ) < (r : ℚ) := lt_trans hnow hfut
    have hrne : r ≠ 0 := by exact_mod_cast ne_of_gt hr0
    have hwait : s.ensure_can_call now = ((r : ℚ) - now) + 1 := by
      unfold RateLimit.ensure_can_call
      rw [hrem, hres]
      simp only [intTruthy, Option.getD_some]
      rw [if_pos]
      · rw [if_pos (by linarith)]
      · simp [hrne]
    refine ⟨hwait, fun fa => ?_⟩
    rw [adjust_firstDispatchTime, hwait]
    ring
  · intro k hrem hk
    have hwait : s.ensure_can_call now = 0 := by
      unfold RateLimit.ensure_can_call
      rw [hrem]
      rw [if_neg]
      simp [hk]
    refine ⟨hwait, fun fa => ?_⟩
    rw [adjust_firstDispatchTime, hwait]
    ring
  · intro hrem
    unfold RateLimit.ensure_can_call
    rw [hrem]
    rw [if_neg]
    simp
  · intro r hres hpast
    have hwait : s.ensure_can_call now = 0 := by
      unfold RateLimit.ensure_can_call
      rw [hres]
      split
      · rw [if_neg]
        simp only [Option.getD_some]
        linarith
      · rfl
    refine ⟨hwait, fun fa => ?_⟩
    rw [adjust_firstDispatchTime, hwait]
    ring

/-- Claim C2 witness: a concrete exhausted state whose reset lies 10 seconds in
the future delays the dispatch to reset + 1, and a concrete state with one
call remaining dispatches at once. -/
theorem ensure_can_call_admission_witness :
    ({ remaining := some 0, reset := some 110 : RateLimit}.remaining = some 0 ∧
     (100 : ℚ) < ((110 : Int) : ℚ) ∧
     { remaining := some 0, reset := some 110 : RateLimit}.ensure_can_call 100 =
       (((110 : Int) : ℚ) - 100) + 1) ∧
    ({ remaining := some 1, reset := some 110 : RateLimit}.ensure_can_call 100 = 0) := by
  constructor
  · refine ⟨rfl, by norm_num, ?_⟩
    exact (((ensure_can_call_admission
      { remaining := some 0, reset := some 110 } 100).1 110 rfl rfl (by norm_num)
      (by norm_num))).1
  · exact (((ensure_can_call_admission
      { remaining := some 1, reset := some 110 } 100).2.1 1 rfl (by norm_num))).1

/-- Claim C3: the state produced by observing a header set has every field equal
to the integer parsed from the corresponding x-ratelimit-* header, an
absent header defaulting that field to zero, and the result does not
depend on the previous state: it is a full replacement, never a merge. -/
theorem observe_full_replacement (old old2 : RateLimit) (h : Headers) :
    observe old h = observe old2 h
    ∧ (h.limit = none → (observe old h).limit = some 0)
    ∧ (∀ v, h.limit = some v → (observe old h).limit = some v)
    ∧ (h.period = none → (observe old h).period = some 0)
    ∧ (∀ v, h.period = some v → (observe old h).period = some v)
    ∧ (h.remaining = none → (observe old h).remaining = some 0)
    ∧ (∀ v, h.remaining = some v → (observe old h).remaining = some v)
    ∧ (h.reset = none → (observe old h).reset = some 0)
    ∧ (∀ v, h.reset = some v → (observe old h).reset = some v)
    ∧ (h.used = none → (observe old h).used = some 0)
    ∧ (∀ v, h.used = some v → (observe old h).used = some v) := by
  refine ⟨rfl, ?_, ?_, ?_, ?_, ?_, ?_, ?_, ?_, ?_, ?_⟩ <;>
    simp +contextual [observe, RateLimit.from_headers]

/-- Claim C3 witness: observing a header set with remaining 7 and an absent
used header yields remaining 7 and used 0, from two different previous
states. -/
theorem observe_full_replacement_witness :
    ({ remaining := some 7 : Headers }.used = none ∧
     (observe { } { remaining := some 7 }).used = some 0) ∧
    ({ remaining := some 7 : Headers }.remaining = some 7 ∧
     (observe { remaining := some 99 } { remaining := some 7 }).remaining = some 7) := by
  constructor
  · exact ⟨rfl,
      (observe_full_replacement { } { } { remaining := some 7 }).2.2.2.2.2.2.2.2.2.1 rfl⟩
  · exact ⟨rfl,
      (observe_full_replacement { remaining := some 99 } { }
        { remaining := some 7 }).2.2.2.2.2.2.1 7 rfl⟩

/-- Claim C1 (failure of the claim, at the code): when the dispatched response
has status 429 the executor does not retry at all. The loop body runs once,
assigns the un-awaited coroutine returned by request() — so no second
request is ever sent (dispatched stays 1) — and the next evaluation of
response.status_code raises AttributeError, which propagates; the last 429
response is never surfaced through error normalization. -/
theorem retry_on_429_crashes (rl0 : RateLimit) (now : ℚ) (r : Response)
    (h : r.status_code = 429) :
    (adjust_to_rate_limits rl0 now (.ok r)).result = .pyError .attributeError
    ∧ (adjust_to_rate_limits rl0 now (.ok r)).dispatched = 1
    ∧ (adjust_to_rate_limits rl0 now (.ok r)).loopIterations = 1 := by
  rw [adjust_of_429 _ _ _ h]
  exact ⟨rfl, rfl, rfl⟩

/-- Claim C1 witness: the failing behaviour at a concrete 429 response. -/
theorem retry_on_429_crashes_witness :
    ({ status_code := 429 : Response }.status_code = 429) ∧
    (adjust_to_rate_limits { } 0 (.ok { status_code := 429 })).result =
      .pyError .attributeError := by
  exact ⟨rfl, (retry_on_429_crashes { } 0 { status_code := 429 } rfl).1⟩

/-- Claim C4 (failure of the claim, at the code): on the retry path the shared
rate-limit state is refreshed only from the first response. When the first
response has status 429 the loop body executes a retry attempt, yet the
final state still equals the one parsed from the first response headers:
the loop neither awaits its request() call (so the attempt obtains no
completed response and nothing is dispatched beyond the first request) nor
contains any from_headers refresh. For every non-429 first response the
refresh from that single completed response does happen. -/
theorem ratelimit_not_refreshed_on_retry (rl0 : RateLimit) (now : ℚ)
    (r : Response) (h : r.status_code = 429) :
    (adjust_to_rate_limits rl0 now (.ok r)).loopIterations = 1
    ∧ (adjust_to_rate_limits rl0 now (.ok r)).ratelimit =
        RateLimit.from_headers r.headers
    ∧ (adjust_to_rate_limits rl0 now (.ok r)).dispatched = 1 := by
  rw [adjust_of_429 _ _ _ h]
  exact ⟨rfl, rfl, rfl⟩

/-- Claim C4 witness: the concrete 429 run, with the first-response headers
distinct from the prior state, ends with exactly the first-response state. -/
theorem ratelimit_not_refreshed_on_retry_witness :
    ({ status_code := 429, headers := { remaining := some 3 } : Response
      }.status_code = 429) ∧
    (adjust_to_rate_limits { remaining := some 9 } 0
      (.ok { status_code := 429, headers := { remaining := some 3 } })).ratelimit =
      RateLimit.from_headers { remaining := some 3 } := by
  exact ⟨rfl, (ratelimit_not_refreshed_on_retry { remaining := some 9 } 0
    { status_code := 429, headers := { remaining := some 3 } } rfl).2.1⟩

/-- Claim C6: a transport failure of the awaited request propagates immediately
with a single dispatch attempt and zero retry-loop iterations, and every
response whose status is not 429 is returned after the single dispatch
with zero retry-loop iterations, then surfaced by raise_on_error as the
normalized error carrying its status when it is not a success; no request
is ever re-issued for these outcomes. -/
theorem non_429_never_retried (rl0 : RateLimit) (now : ℚ) :
    (∀ e, (adjust_to_rate_limits rl0 now (.error e)).result = .transportError e
        ∧ (adjust_to_rate_limits rl0 now (.error e)).dispatched = 1
        ∧ (adjust_to_rate_limits rl0 now (.error e)).loopIterations = 0)
    ∧ (∀ r : Response, r.status_code ≠ 429 →
        (adjust_to_rate_limits rl0 now (.ok r)).result = .response r
        ∧ (adjust_to_rate_limits rl0 now (.ok r)).dispatched = 1
        ∧ (adjust_to_rate_limits rl0 now (.ok r)).loopIterations = 0)
    ∧ (∀ (c : Client212) (path : String) (r : Response),
        r.status_code ≠ 429 → r.is_success = false →
        ∃ e2, (c.get path rl0 now (.ok r)).1 = .normalized e2
          ∧ e2.status = r.status_code) := by
  refine ⟨?_, ?_, ?_⟩
  · intro e
    rw [adjust_of_transport_error]
    exact ⟨rfl, rfl, rfl⟩
  · intro r h
    rw [adjust_of_non429 _ _ _ h]
    exact ⟨rfl, rfl, rfl⟩
  · intro c path r h hfail
    refine ⟨{ method := "GET", url := c.make_url path, status := r.status_code
            , body := match r.jsonBody with
                | some j => Sum.inl j
                | none => Sum.inr r.text
            , requestData := none }, ?_, rfl⟩
    simp [Client212.get, adjust_of_non429 _ _ _ h, raise_on_error, hfail,
      J.pyTruthy]

/-- Claim C6 witness: a concrete 500 response is surfaced unchanged after one
dispatch, and a concrete transport failure propagates. -/
theorem non_429_never_retried_witness :
    (({ status_code := 500 : Response }).status_code ≠ 429 ∧
     (adjust_to_rate_limits { } 0 (.ok { status_code := 500 })).result =
       .response { status_code := 500 } ∧
     (adjust_to_rate_limits { } 0 (.ok { status_code := 500 })).loopIterations = 0) ∧
    (adjust_to_rate_limits { } 0
      (.error (.failure "timeout"))).result = .transportError (.failure "timeout") := by
  constructor
  · have h := (non_429_never_retried { } 0).2.1 { status_code := 500 } (by decide)
    exact ⟨by decide, h.1, h.2.2⟩
  · exact ((non_429_never_retried { } 0).1 (.failure "timeout")).1

/-- A concrete failed response used to examine error normalization: status
400 with a structured body. -/
def respFailed : Response :=
  { status_code := 400
  , text := "plain text"
  , jsonBody := some (J.obj [("code", J.str "InvalidTicker")]) }

/-- Claim C5 counterexample: a request body was present (the data argument is
some empty object, the Python empty dict, so a body was sent with the
request), the response is a non-success, yet the normalized error carries
no request data: the Python test if data: is false for an empty dict, so
the body is lost, contradicting the claim that the request body is never
lost when one was present. -/
theorem raise_on_error_loses_empty_body :
    (some (J.obj []) : Option J) ≠ none ∧
    raise_on_error respFailed "base/equity/orders/limit" "POST"
        (some (J.obj [])) =
      .error
        { method := "POST"
        , url := "base/equity/orders/limit"
        , status := 400
        , body := Sum.inl (J.obj [("code", J.str "InvalidTicker")])
        , requestData := none } := by
  constructor
  · intro hc
    exact Option.noConfusion hc
  · rfl

/-- Claim C5 as amended: for every non-success response the normalized error
carries the original status code, a body equal to the parsed structured
data when the response body is valid structured data and to the raw
response text otherwise, and the request body whenever one was present and
non-empty (Python-truthy); only a present-but-falsy body, such as the
empty dict, is omitted. -/
theorem raise_on_error_preserves (r : Response) (url method : String)
    (data : Option J) (hfail : r.is_success = false) :
    ∃ e : NormalizedError,
      raise_on_error r url method data = .error e
      ∧ e.status = r.status_code
      ∧ (∀ j, r.jsonBody = some j → e.body = Sum.inl j)
      ∧ (r.jsonBody = none → e.body = Sum.inr r.text)
      ∧ (∀ d, data = some d → d.pyTruthy = true → e.requestData = some d) := by
  refine ⟨{ method := method, url := url, status := r.status_code
          , body := match r.jsonBody with
              | some j => Sum.inl j
              | none => Sum.inr r.text
          , requestData := if (data.getD J.null).pyTruthy then data
              else none }, ?_, rfl, ?_, ?_, ?_⟩
  · simp [raise_on_error, hfail]
  · intro j hj
    simp only [hj]
  · intro hj
    simp only [hj]
  · intro d hd htr
    simp only [hd, Option.getD_some, htr, if_true]

/-- Claim C5 witness: the amended statement at the concrete failed response with
a non-empty request body. -/
theorem raise_on_error_preserves_witness :
    respFailed.is_success = false ∧
    ∃ e : NormalizedError,
      raise_on_error respFailed "base/equity/orders/limit" "POST"
          (some (J.obj [("ticker", J.str "X")])) = .error e
      ∧ e.status = respFailed.status_code
      ∧ (∀ j, respFailed.jsonBody = some j → e.body = Sum.inl j)
      ∧ (respFailed.jsonBody = none → e.body = Sum.inr respFailed.text)
      ∧ (∀ d, (some (J.obj [("ticker", J.str "X")]) : Option J) = some d →
          d.pyTruthy = true → e.requestData = some d) := by
  exact ⟨rfl, raise_on_error_preserves respFailed "base/equity/orders/limit"
    "POST" (some (J.obj [("ticker", J.str "X")])) rfl⟩

/-- Claim C7: the credential codec is a pure deterministic function of the
identifier and secret — equal pairs give identical tokens — the
Authorization header value built by the client is the Basic scheme applied
to that token, the token is the base64 of the UTF-8 bytes of the string
identifier colon secret, and empty credentials are legal and produce the
token for the bare colon. -/
theorem credentials_deterministic (id1 sec1 id2 sec2 : String)
    (h1 : id1 = id2) (h2 : sec1 = sec2) :
    make_credentials id1 sec1 = make_credentials id2 sec2
    ∧ (∀ url, (Client212.init id1 sec1 url).make_headers =
        "Basic " ++ make_credentials id1 sec1)
    ∧ make_credentials id1 sec1 =
        String.mk (b64encode (utf8Encode (id1 ++ ":" ++ sec1)))
    ∧ make_credentials "" "" = "Og==" := by
  subst h1
  subst h2
  exact ⟨rfl, fun url => rfl, rfl, by decide⟩

/-- Claim C7 witness: the theorem at a concrete key pair; the token matches the
base64 of the concrete UTF-8 bytes. -/
theorem credentials_deterministic_witness :
    ("keyId" : String) = "keyId" ∧ ("secret" : String) = "secret" ∧
    make_credentials "keyId" "secret" = make_credentials "keyId" "secret" ∧
    (Client212.init "keyId" "secret" "https://base/").make_headers =
      "Basic " ++ make_credentials "keyId" "secret" := by
  have h := credentials_deterministic "keyId" "secret" "keyId" "secret" rfl rfl
  exact ⟨rfl, rfl, h.1, h.2.1 "https://base/"⟩

/-- Claim C8: a delete whose response has a success status such as 204 returns
the boolean success indicator true, and a delete whose response has a
non-success status such as 404 surfaces a normalized error carrying that
status code, not a boolean. -/
theorem delete_success_indicator (c : Client212) (path : String)
    (rl0 : RateLimit) (now : ℚ) (r : Response) :
    (r.status_code = 204 →
      (c.delete path rl0 now (.ok r)).1 = .deleteResult true)
    ∧ (r.status_code = 404 →
      ∃ e, (c.delete path rl0 now (.ok r)).1 = .normalized e
        ∧ e.status = 404) := by
  constructor
  · intro h204
    have hne : r.status_code ≠ 429 := by omega
    simp [Client212.delete, adjust_of_non429 _ _ _ hne, raise_on_error,
      Response.is_success, h204]
  · intro h404
    have hne : r.status_code ≠ 429 := by omega
    refine ⟨{ method := "DELETE", url := c.make_url path, status := r.status_code
            , body := match r.jsonBody with
                | some j => Sum.inl j
                | none => Sum.inr r.text
            , requestData := none }, ?_, h404 ▸ rfl⟩
    simp [Client212.delete, adjust_of_non429 _ _ _ hne, raise_on_error,
      Response.is_success, h404, J.pyTruthy]

/-- Claim C8 witness: the theorem at concrete 204 and 404 responses. -/
theorem delete_success_indicator_witness :
    (({ status_code := 204 : Response }).status_code = 204 ∧
     ((Client212.init "k" "s" "b").delete "equity/pies/1" { } 0
        (.ok { status_code := 204 })).1 = .deleteResult true) ∧
    (({ status_code := 404 : Response }).status_code = 404 ∧
     ∃ e, ((Client212.init "k" "s" "b").delete "equity/pies/1" { } 0
        (.ok { status_code := 404 })).1 = .normalized e ∧ e.status = 404) := by
  constructor
  · exact ⟨rfl, (delete_success_indicator (Client212.init "k" "s" "b")
      "equity/pies/1" { } 0 { status_code := 204 }).1 rfl⟩
  · exact ⟨rfl, (delete_success_indicator (Client212.init "k" "s" "b")
      "equity/pies/1" { } 0 { status_code := 404 }).2 rfl⟩

/-- The stale shared state two concurrent callers start from: one call
left in the current window. -/
def staleState : RateLimit :=
  { limit := some 50, period := some 60, remaining := some 1
  , reset := some 1000, used := some 49 }

/-- The response each concurrent caller will receive: its headers report
the window as exhausted. -/
def exhaustedResponse : Response :=
  { status_code := 200
  , headers := { limit := some 50, period := some 60, remaining := some 0
               , reset := some 1000, used := some 50 } }

/-- Two callers of the executor on one shared client, both about to run
the admission check against the stale state. -/
def twoCallers : SysState :=
  { ratelimit := staleState
  , task0 := { phase := .toAdmit, response := exhaustedResponse }
  , task1 := { phase := .toAdmit, response := exhaustedResponse } }

/-- Claim C9 (failure of the claim, at the code): the source takes no lock, so
the admission check of a second caller can run while the first caller is
suspended at await request(), inside the span the claim requires to be
mutually exclusive. Under the schedule where both tasks run their
admission segment before either resumes, both admit on the very same stale
observation remaining = 1 and both dispatch — two requests against a
window with one call left. Under the serialized schedule the second caller
instead observes remaining = 0, which is what the claimed critical section
would enforce. -/
theorem no_admission_mutual_exclusion :
    ((runSchedule twoCallers [false, true]).task0.admittedSeeing =
        some (some 1)
      ∧ (runSchedule twoCallers [false, true]).task1.admittedSeeing =
        some (some 1)
      ∧ (runSchedule twoCallers [false, true]).dispatched = 2
      ∧ staleState.remaining = some 1)
    ∧ (runSchedule twoCallers [false, false, true]).task1.admittedSeeing =
        some (some 0) := by
  exact ⟨⟨rfl, rfl, rfl, rfl⟩, rfl⟩

/-- Claim C10: calling an order tool with a time_validity outside DAY and
GOOD_TILL_CANCEL, or the pie tool with a dividend_destination outside
REINVEST and TO_ACCOUNT_CASH, fails in enum conversion before any HTTP
request is built, so no request is issued; in particular the value CASH
that the create_pie tool description itself suggests is rejected. -/
theorem tool_enum_rejection (tv dd : String)
    (htv1 : tv ≠ "DAY") (htv2 : tv ≠ "GOOD_TILL_CANCEL")
    (hdd1 : dd ≠ "REINVEST") (hdd2 : dd ≠ "TO_ACCOUNT_CASH") :
    (∀ (ticker : String) (q lp : ℚ),
      place_limit_order_tool ticker q lp tv = .valueError tv)
    ∧ (∀ (name : String) (shares : List (String × ℚ))
        (ed : Option PyDatetime) (goal : Option ℚ),
      create_pie_tool name dd shares ed goal = .valueError dd)
    ∧ create_pie_tool "p" "CASH" [] none none = .valueError "CASH" := by
  have htv : TimeValidity.ofValue tv = none := by
    unfold TimeValidity.ofValue
    split
    · exact absurd rfl htv1
    · exact absurd rfl htv2
    · rfl
  have hdd : DividendDestination.ofValue dd = none := by
    unfold DividendDestination.ofValue
    split
    · exact absurd rfl hdd1
    · exact absurd rfl hdd2
    · rfl
  refine ⟨?_, ?_, rfl⟩
  · intro ticker q lp
    simp [place_limit_order_tool, htv]
  · intro name shares ed goal
    simp [create_pie_tool, hdd]

/-- Claim C10 witness: the rejection at the concrete invalid strings GTC and
CASH. -/
theorem tool_enum_rejection_witness :
    ("GTC" : String) ≠ "DAY" ∧ ("CASH" : String) ≠ "REINVEST" ∧
    place_limit_order_tool "AAPL_US_EQ" 1 100 "GTC" = .valueError "GTC" ∧
    create_pie_tool "mypie" "CASH" [("AAPL_US_EQ", 1)] none none =
      .valueError "CASH" := by
  have h := tool_enum_rejection "GTC" "CASH" (by decide) (by decide)
    (by decide) (by decide)
  exact ⟨by decide, by decide, h.1 "AAPL_US_EQ" 1 100,
    h.2.1 "mypie" [("AAPL_US_EQ", 1)] none none⟩

end Trading212
